import Mathlib

/-!
# NS-Stores reporting layer: a shallow embedding

This file embeds the reporting controllers of the NS-Stores backend
(`src/controllers/reportController.js`) together with the authentication
middleware and the report router, and proves or refutes the specified
properties of that layer.

Modelling conventions:
* Each MongoDB collection is a Lean `List` of records; the collection state
  of the whole store is a `DB` value.
* Instants (the JS `Date` values and the `createdAt`/`updatedAt`/`lastLogin`
  fields) are integers: milliseconds since the Unix epoch, UTC.  The server
  clock is assumed to be UTC, so `toISOString` (UTC) and the local-time
  accessors `getDate`/`getMonth` agree.
* `date.setDate(date.getDate() - n)` on a JS `Date`: the civil calendar
  normalises the out-of-range day-of-month, which in UTC is exactly a shift
  by `n * 86400000` milliseconds, so it is embedded as that subtraction.
  `setMonth` does not linearise this way and is embedded through the civil
  calendar (`jsSetMonthYM`).
* `countDocuments(q)` is `List.countP`, `find(q)` is `List.filter`,
  `.sort({f: 1})` is a stable insertion sort on `f`, `$group` is grouping in
  first-seen key order, `$lookup`/`$unwind` is an association lookup that
  drops documents whose reference does not resolve, mirroring the pipelines.
* A `$group` with `_id: null` yields one output document when at least one
  document matched and none otherwise; the handlers take `stats[0] || {}`,
  embedded as an `Option` (`none` is the empty object `{}`).
* Mongo `$avg` over a numeric field is an exact rational; `$avg` over a
  `Date`-valued field ignores the dates (documented `$avg` behaviour:
  non-numeric values are skipped) and yields null, embedded as `none`.
-/

namespace NSStores

/-! ## Generic list helpers (the embedding of Mongo sort and group stages) -/

/-- Stable insertion of `x` into `l`, keeping `x` before later equal keys:
the embedding of one step of a stable sort. -/
def insertSorted (le : α → α → Bool) (x : α) : List α → List α
  | [] => [x]
  | y :: ys => if le x y then x :: y :: ys else y :: insertSorted le x ys

/-- Stable sort of `l` by `le`: the embedding of a Mongo `.sort`/`$sort`
stage. -/
def sortBy (le : α → α → Bool) (l : List α) : List α :=
  l.foldr (insertSorted le) []

theorem mem_insertSorted (le : α → α → Bool) (x a : α) (l : List α) :
    a ∈ insertSorted le x l ↔ a = x ∨ a ∈ l := by
  induction l with
  | nil => simp [insertSorted]
  | cons y ys ih =>
    simp only [insertSorted]
    split
    · simp [or_comm, or_assoc, or_left_comm]
    · simp [ih, or_comm, or_assoc, or_left_comm]

theorem mem_sortBy (le : α → α → Bool) (a : α) (l : List α) :
    a ∈ sortBy le l ↔ a ∈ l := by
  induction l with
  | nil => simp [sortBy]
  | cons y ys ih =>
    simp only [sortBy, List.foldr] at *
    rw [mem_insertSorted, ih, List.mem_cons]

/-- Add one document to a `$group` accumulator, keyed by `k`, keeping keys in
first-seen order and members in document order. -/
def addToGroup [DecidableEq κ] (k : κ) (x : α) : List (κ × List α) → List (κ × List α)
  | [] => [(k, [x])]
  | (k₀, xs) :: rest =>
    if k = k₀ then (k₀, xs ++ [x]) :: rest else (k₀, xs) :: addToGroup k x rest

/-- The embedding of a Mongo `$group` stage: group `l` by `key`. -/
def groupByKey [DecidableEq κ] (key : α → κ) (l : List α) : List (κ × List α) :=
  l.foldl (fun acc x => addToGroup (key x) x acc) []

/-! ## Numeric aggregate helpers -/

/-- `$avg` over an integer-valued field, as an exact rational.  Only evaluated
on the documents of a group, which is non-empty by construction. -/
def intAvg (l : List Int) : Rat := (l.sum : Rat) / (l.length : Rat)

/-- `$max` over an integer-valued field of a non-empty group ([] default is
never reached: groups exist only when a document matched). -/
def intMax : List Int → Int
  | [] => 0
  | x :: xs => xs.foldl max x

/-- `$min` over an integer-valued field of a non-empty group. -/
def intMin : List Int → Int
  | [] => 0
  | x :: xs => xs.foldl min x

/-! ## The civil (proleptic Gregorian) calendar, UTC

`daysFromCivil`/`civilFromDays` convert between a calendar date and the count
of days since 1970-01-01, by the standard era-based algorithm.  Months are
1-based here; the JS `Date` accessors are 0-based and the embedding of
`setMonth` converts. -/

def msPerDay : Int := 86400000

def isLeapYear (y : Int) : Bool :=
  y % 4 = 0 && (y % 100 ≠ 0 || y % 400 = 0)

/-- Length of month `m0` (0-based, January = 0) of year `y`. -/
def daysInMonth (y : Int) (m0 : Int) : Int :=
  if m0 = 1 then (if isLeapYear y then 29 else 28)
  else if m0 = 3 ∨ m0 = 5 ∨ m0 = 8 ∨ m0 = 10 then 30
  else 31

/-- Days since 1970-01-01 of the civil date `y-m-d` (month 1-based). -/
def daysFromCivil (y m d : Int) : Int :=
  let yAdj := if m ≤ 2 then y - 1 else y
  let era := yAdj.fdiv 400
  let yoe := yAdj - era * 400
  let mp := if 2 < m then m - 3 else m + 9
  let doy := (153 * mp + 2).fdiv 5 + d - 1
  let doe := yoe * 365 + yoe.fdiv 4 - yoe.fdiv 100 + doy
  era * 146097 + doe - 719468

/-- The civil date `(year, month 1-based, day)` of day number `z`
(days since 1970-01-01). -/
def civilFromDays (z : Int) : Int × Int × Int :=
  let z0 := z + 719468
  let era := z0.fdiv 146097
  let doe := z0 - era * 146097
  let yoe := (doe - doe.fdiv 1460 + doe.fdiv 36524 - doe.fdiv 146096).fdiv 365
  let y := yoe + era * 400
  let doy := doe - (365 * yoe + yoe.fdiv 4 - yoe.fdiv 100)
  let mp := (5 * doy + 2).fdiv 153
  let d := doy - (153 * mp + 2).fdiv 5 + 1
  let m := if mp < 10 then mp + 3 else mp - 9
  (if m ≤ 2 then y + 1 else y, m, d)

/-- Milliseconds since the epoch of civil date `y-m-d` (month 1-based) plus
`tod` milliseconds into the day. -/
def msOfDateTime (y m d tod : Int) : Int :=
  daysFromCivil y m d * msPerDay + tod

/-- The civil date of the UTC day containing instant `t`. -/
def civilOfMs (t : Int) : Int × Int × Int :=
  civilFromDays (t.fdiv msPerDay)

/-- Two-digit decimal rendering of `n < 100`, as `toISOString` pads. -/
def pad2 (n : Nat) : String :=
  if n < 10 then "0" ++ toString n else toString n

/-- The `YYYY-MM-DD` label `date.toISOString().split('T')[0]` produces for the
instant `t` (server clock UTC). -/
def dateLabel (t : Int) : String :=
  let c := civilOfMs t
  toString c.1 ++ "-" ++ pad2 c.2.1.toNat ++ "-" ++ pad2 c.2.2.toNat

/-- The `YYYY-MM` label `startOfMonth.toISOString().substring(0, 7)` produces
for the first of month `m0` (0-based) of year `y`. -/
def monthLabel (y : Int) (m0 : Int) : String :=
  toString y ++ "-" ++ pad2 (m0 + 1).toNat

/-- `date.setMonth(m)` on a JS `Date` with year `y` and day-of-month `d`
(`m` is a 0-based month index, possibly negative or ≥ 12): the year is
borrowed/carried from `m`, and a day-of-month beyond the target month's
length spills into the following month.  Returns the `(getFullYear(),
getMonth())` pair of the mutated date, which is all the controllers read.
`d ≤ 31` and every month has ≥ 28 days, so the spill crosses at most one
month boundary. -/
def jsSetMonthYM (y m d : Int) : Int × Int :=
  let ym := y * 12 + m
  let y₁ := ym.fdiv 12
  let m₁ := ym.emod 12
  if d ≤ daysInMonth y₁ m₁ then (y₁, m₁)
  else if m₁ = 11 then (y₁ + 1, 0) else (y₁, m₁ + 1)

/-- Instant of `new Date(y, m0, 1)` (midnight starting month `m0`, 0-based),
server clock UTC. -/
def monthStartMs (y m0 : Int) : Int :=
  msOfDateTime y (m0 + 1) 1 0

/-- Instant of `new Date(y, m0 + 1, 0)`: day 0 of the following month
normalises to the *last day* of month `m0` at 00:00:00.000 — the start of the
last day, not the end of the month. -/
def monthEndJsMs (y m0 : Int) : Int :=
  msOfDateTime y (m0 + 1) (daysInMonth y m0) 0

/-! ## `parseInt`

The embedding of the JS `parseInt(s)` call the controllers apply to the
`period` query parameter: leading whitespace is skipped, an optional sign is
read, a `0x`/`0X` prefix switches to hexadecimal, and the longest digit
prefix is converted; no digits means `NaN`, embedded as `none`. -/

def decDigit (c : Char) : Bool := '0' ≤ c && c ≤ '9'

def hexDigit (c : Char) : Bool :=
  decDigit c || ('a' ≤ c && c ≤ 'f') || ('A' ≤ c && c ≤ 'F')

def hexVal (c : Char) : Nat :=
  if decDigit c then c.toNat - '0'.toNat
  else if 'a' ≤ c && c ≤ 'f' then c.toNat - 'a'.toNat + 10
  else c.toNat - 'A'.toNat + 10

def digitsToNat (base : Nat) (ds : List Char) : Nat :=
  ds.foldl (fun acc c => acc * base + hexVal c) 0

def jsParseInt (s : String) : Option Int :=
  let cs := s.toList.dropWhile (fun c => c.isWhitespace)
  let sgn : Int := match cs with
    | '-' :: _ => -1
    | _ => 1
  let cs := match cs with
    | '-' :: rest => rest
    | '+' :: rest => rest
    | _ => cs
  match cs with
  | '0' :: 'x' :: rest =>
    let ds := rest.takeWhile hexDigit
    if ds.isEmpty then none else some (sgn * (digitsToNat 16 ds : Int))
  | '0' :: 'X' :: rest =>
    let ds := rest.takeWhile hexDigit
    if ds.isEmpty then none else some (sgn * (digitsToNat 16 ds : Int))
  | _ =>
    let ds := cs.takeWhile decDigit
    if ds.isEmpty then none else some (sgn * (digitsToNat 10 ds : Int))

/-! ## The data model

Modelled from the spec: the Mongoose schema files (`src/models/*.js`) are not
among the repository files provided, so the entity records follow the field
table of spec §3 plus the fields the controllers read (`image` appears in the
product projections, `isActive` on users is read by the auth middleware).
Per the spec invariants `stock ≥ 0` and `minStock ≥ 0` those fields are `Nat`;
`loginCount` is a login counter and is likewise `Nat`. -/

structure Product where
  name : String
  sku : String
  image : String
  category : String
  price : Int
  stock : Nat
  minStock : Nat
  isActive : Bool
  supplier : Option Nat
  createdAt : Int
  updatedAt : Int
deriving Repr, DecidableEq

structure Supplier where
  id : Nat
  name : String
  location : String
  isActive : Bool
  agreementEndDate : Option Int
  createdAt : Int
deriving Repr, DecidableEq

inductive Role where
  | admin
  | customer
deriving Repr, DecidableEq

structure User where
  id : Nat
  fullName : String
  email : String
  role : Role
  loginCount : Nat
  lastLogin : Int
  createdAt : Int
  isActive : Bool
deriving Repr, DecidableEq

inductive QStatus where
  | pending
  | processing
  | completed
  | rejected
deriving Repr, DecidableEq

structure Quotation where
  status : QStatus
  productCategory : String
  totalAmount : Int
  createdAt : Int
  updatedAt : Int
deriving Repr, DecidableEq

inductive RStatus where
  | pending
  | confirmed
  | completed
  | cancelled
deriving Repr, DecidableEq

structure Reservation where
  status : RStatus
  email : String
  createdAt : Int
  updatedAt : Int
deriving Repr, DecidableEq

/-- The collection state of the store at one instant. -/
structure DB where
  products : List Product
  suppliers : List Supplier
  users : List User
  quotations : List Quotation
  reservations : List Reservation
deriving Repr, DecidableEq

/-- `countDocuments({createdAt: {$gte: startDate}})` over the `createdAt`
column of a collection: the recurring "recent entities" count. -/
def recentCount (ts : List Int) (startDate : Int) : Nat :=
  ts.countP (fun t => decide (startDate ≤ t))

/-- `price * stock` of one product, the stock-value term of the pipelines. -/
def stockValueOf (p : Product) : Int := p.price * (p.stock : Int)

/-! ## Product report (`getProductReports`) -/

structure ProductOverview where
  totalProducts : Nat
  activeProducts : Nat
  lowStockProducts : Nat
  outOfStockProducts : Nat
  recentProducts : Nat
deriving Repr, DecidableEq

/-- One `$group` result of the category-distribution pipeline. -/
structure CategoryStat where
  category : String
  count : Nat
  totalValue : Int
deriving Repr, DecidableEq

structure StockValueStats where
  totalStockValue : Int
  avgPrice : Rat
  maxPrice : Int
  minPrice : Int
deriving Repr, DecidableEq

structure TopSupplierStat where
  supplierId : Nat
  productCount : Nat
  totalStockValue : Int
  supplierInfo : Supplier
deriving Repr, DecidableEq

/-- Projection `'name sku stock minStock image category price'` of the
low-stock list. -/
structure LowStockItem where
  name : String
  sku : String
  stock : Nat
  minStock : Nat
  image : String
  category : String
  price : Int
deriving Repr, DecidableEq

/-- Projection `'name sku stock image category price updatedAt'` of the
out-of-stock list. -/
structure OutOfStockItem where
  name : String
  sku : String
  stock : Nat
  image : String
  category : String
  price : Int
  updatedAt : Int
deriving Repr, DecidableEq

structure ProductReportData where
  overview : ProductOverview
  categoryDistribution : List CategoryStat
  stockValue : Option StockValueStats
  topSuppliers : List TopSupplierStat
  lowStockProducts : List LowStockItem
  outOfStockProducts : List OutOfStockItem
deriving Repr, DecidableEq

def lowStockProj (p : Product) : LowStockItem :=
  { name := p.name, sku := p.sku, stock := p.stock, minStock := p.minStock,
    image := p.image, category := p.category, price := p.price }

def outOfStockProj (p : Product) : OutOfStockItem :=
  { name := p.name, sku := p.sku, stock := p.stock, image := p.image,
    category := p.category, price := p.price, updatedAt := p.updatedAt }

/-- The data assembled by `getProductReports` once the period string has been
parsed to `days`: `startDate` is `new Date()` minus `days` days. -/
def productReportData (db : DB) (now : Int) (days : Int) : ProductReportData :=
  let startDate := now - days * msPerDay
  let act := db.products.filter (·.isActive)
  { overview :=
    { totalProducts := db.products.length
      activeProducts := db.products.countP (·.isActive)
      lowStockProducts :=
        db.products.countP (fun p => decide (p.stock ≤ p.minStock) && p.isActive)
      outOfStockProducts :=
        db.products.countP (fun p => decide (p.stock = 0) && p.isActive)
      recentProducts := recentCount (db.products.map (·.createdAt)) startDate }
    categoryDistribution :=
      sortBy (fun a b => b.count ≤ a.count)
        ((groupByKey (·.category) act).map (fun g =>
          { category := g.1, count := g.2.length,
            totalValue := (g.2.map stockValueOf).sum }))
    stockValue :=
      match act with
      | [] => none
      | _ :: _ => some
        { totalStockValue := (act.map stockValueOf).sum
          avgPrice := intAvg (act.map (·.price))
          maxPrice := intMax (act.map (·.price))
          minPrice := intMin (act.map (·.price)) }
    topSuppliers :=
      let withSup := db.products.filter (fun p => p.isActive && p.supplier.isSome)
      let joined := (groupByKey (fun p => p.supplier.getD 0) withSup).filterMap
        (fun g =>
          match db.suppliers.find? (fun s => decide (s.id = g.1)) with
          | none => none
          | some sup => some
            { supplierId := g.1, productCount := g.2.length,
              totalStockValue := (g.2.map stockValueOf).sum, supplierInfo := sup })
      (sortBy (fun a b => b.productCount ≤ a.productCount) joined).take 10
    lowStockProducts :=
      (sortBy (fun a b => a.stock ≤ b.stock)
        (db.products.filter (fun p =>
          decide (p.stock ≤ p.minStock) && decide (0 < p.stock) && p.isActive))).map
        lowStockProj
    outOfStockProducts :=
      (sortBy (fun a b => b.updatedAt ≤ a.updatedAt)
        (db.products.filter (fun p => decide (p.stock = 0) && p.isActive))).map
        outOfStockProj }

/-! ## Supplier report (`getSupplierReports`) -/

structure SupplierOverview where
  totalSuppliers : Nat
  activeSuppliers : Nat
  inactiveSuppliers : Nat
  expiredAgreements : Nat
  expiringSoon : Nat
  recentSuppliers : Nat
deriving Repr, DecidableEq

structure SupplierProductStat where
  supplierId : Nat
  productCount : Nat
  totalStockValue : Int
  avgPrice : Rat
  supplierInfo : Supplier
deriving Repr, DecidableEq

structure LocationStat where
  location : String
  count : Nat
deriving Repr, DecidableEq

structure SupplierReportData where
  overview : SupplierOverview
  supplierProductStats : List SupplierProductStat
  locationDistribution : List LocationStat
deriving Repr, DecidableEq

/-- The data assembled by `getSupplierReports`.  `currentDate` and the
`new Date()` used for `startDate` are the same request instant `now`. -/
def supplierReportData (db : DB) (now : Int) (days : Int) : SupplierReportData :=
  let startDate := now - days * msPerDay
  { overview :=
    { totalSuppliers := db.suppliers.length
      activeSuppliers := db.suppliers.countP (·.isActive)
      inactiveSuppliers := db.suppliers.countP (fun s => s.isActive = false)
      expiredAgreements :=
        db.suppliers.countP (fun s =>
          match s.agreementEndDate with
          | some d => decide (d < now)
          | none => false)
      expiringSoon :=
        db.suppliers.countP (fun s =>
          match s.agreementEndDate with
          | some d => decide (now ≤ d) && decide (d ≤ now + 30 * 24 * 60 * 60 * 1000)
          | none => false)
      recentSuppliers := recentCount (db.suppliers.map (·.createdAt)) startDate }
    supplierProductStats :=
      let withSup := db.products.filter (fun p => p.isActive && p.supplier.isSome)
      let joined := (groupByKey (fun p => p.supplier.getD 0) withSup).filterMap
        (fun g =>
          match db.suppliers.find? (fun s => decide (s.id = g.1)) with
          | none => none
          | some sup => some
            { supplierId := g.1, productCount := g.2.length,
              totalStockValue := (g.2.map stockValueOf).sum,
              avgPrice := intAvg (g.2.map (·.price)), supplierInfo := sup })
      sortBy (fun a b => b.productCount ≤ a.productCount) joined
    locationDistribution :=
      sortBy (fun a b => b.count ≤ a.count)
        ((groupByKey (·.location) db.suppliers).map (fun g =>
          { location := g.1, count := g.2.length })) }

/-! ## User report (`getUserReports`) -/

structure UserOverview where
  totalUsers : Nat
  adminUsers : Nat
  customerUsers : Nat
  recentRegistrations : Nat
  activeUsers : Nat
deriving Repr, DecidableEq

/-- One point of the 7-day registration trend. -/
structure TrendPoint where
  date : String
  count : Nat
deriving Repr, DecidableEq

/-- One point of the 7-day activity trend. -/
structure ActivityPoint where
  date : String
  activeUsers : Nat
deriving Repr, DecidableEq

structure TopActiveUser where
  fullName : String
  email : String
  loginCount : Nat
  lastLogin : Int
deriving Repr, DecidableEq

/-- The `$group _id: null` aggregate over all users.  `avgLastLogin` is
`$avg` over a Date-valued field: `$avg` skips non-numeric values, so it is
null whenever users exist, embedded as `none`. -/
structure ActivityStats where
  avgLastLogin : Option Rat
  maxLastLogin : Int
  minLastLogin : Int
  avgLoginCount : Rat
  maxLoginCount : Nat
  totalLogins : Nat
deriving Repr, DecidableEq

inductive BucketId where
  | num (lo : Nat)
  | overflow
deriving Repr, DecidableEq

structure BucketUser where
  name : String
  email : String
  loginCount : Nat
deriving Repr, DecidableEq

structure LoginBucket where
  id : BucketId
  count : Nat
  users : List BucketUser
deriving Repr, DecidableEq

structure UserReportData where
  overview : UserOverview
  registrationTrends : List TrendPoint
  activityStats : Option ActivityStats
  topActiveUsers : List TopActiveUser
  loginDistribution : List LoginBucket
  activityTrends : List ActivityPoint
deriving Repr, DecidableEq

/-- The `$bucket` stage of the login-count histogram: boundary buckets
`[0,1) [1,5) [5,10) [10,20) [20,50) [50,100)` keyed by their lower bound,
and the default bucket `'100+'` for every value outside the boundaries
(`loginCount` is a natural number, so that is exactly `100 ≤ loginCount`).
The default bucket is listed last: the pipeline's `$sort {_id: 1}` puts the
numeric keys, ascending, before the string key (BSON type order). -/
def bucketSpecs : List (BucketId × (Nat → Bool)) :=
  [ (.num 0, fun lc => decide (lc < 1)),
    (.num 1, fun lc => decide (1 ≤ lc) && decide (lc < 5)),
    (.num 5, fun lc => decide (5 ≤ lc) && decide (lc < 10)),
    (.num 10, fun lc => decide (10 ≤ lc) && decide (lc < 20)),
    (.num 20, fun lc => decide (20 ≤ lc) && decide (lc < 50)),
    (.num 50, fun lc => decide (50 ≤ lc) && decide (lc < 100)),
    (.overflow, fun lc => decide (100 ≤ lc)) ]

/-- One `$bucket` output document: `$bucket` emits a bucket only when at
least one document fell into it. -/
def mkBucket (users : List User) (spec : BucketId × (Nat → Bool)) :
    Option LoginBucket :=
  if (users.filter (fun u => spec.2 u.loginCount)).isEmpty then none
  else some
    { id := spec.1
      count := (users.filter (fun u => spec.2 u.loginCount)).length
      users := (users.filter (fun u => spec.2 u.loginCount)).map (fun u =>
        { name := u.fullName, email := u.email, loginCount := u.loginCount }) }

def loginDistribution (users : List User) : List LoginBucket :=
  bucketSpecs.filterMap (mkBucket users)

/-- The data assembled by `getUserReports`. -/
def userReportData (db : DB) (now : Int) (days : Int) : UserReportData :=
  let startDate := now - days * msPerDay
  { overview :=
    { totalUsers := db.users.length
      adminUsers := db.users.countP (fun u => decide (u.role = Role.admin))
      customerUsers := db.users.countP (fun u => decide (u.role = Role.customer))
      recentRegistrations := recentCount (db.users.map (·.createdAt)) startDate
      -- active = logged in within the last 30 days, independent of `period`
      activeUsers := db.users.countP (fun u => decide (now - 30 * msPerDay ≤ u.lastLogin)) }
    registrationTrends :=
      -- for i = 6 .. 0: date = now - i days (same time of day), next = date + 1 day
      (List.range 7).map (fun k =>
        let i : Int := 6 - (k : Int)
        let dayAnchor := now - i * msPerDay
        { date := dateLabel dayAnchor
          count := db.users.countP (fun u =>
            decide (dayAnchor ≤ u.createdAt) && decide (u.createdAt < dayAnchor + msPerDay)) })
    activityStats :=
      match db.users with
      | [] => none
      | _ :: _ => some
        { avgLastLogin := none
          maxLastLogin := intMax (db.users.map (·.lastLogin))
          minLastLogin := intMin (db.users.map (·.lastLogin))
          avgLoginCount := intAvg (db.users.map (fun u => (u.loginCount : Int)))
          maxLoginCount := (db.users.map (·.loginCount)).foldl max 0
          totalLogins := (db.users.map (·.loginCount)).sum }
    topActiveUsers :=
      ((sortBy (fun a b => b.loginCount ≤ a.loginCount)
        (db.users.filter (fun u => decide (u.role = Role.customer)))).take 5).map
        (fun u => { fullName := u.fullName, email := u.email,
                    loginCount := u.loginCount, lastLogin := u.lastLogin })
    loginDistribution := loginDistribution db.users
    activityTrends :=
      (List.range 7).map (fun k =>
        let i : Int := 6 - (k : Int)
        let dayAnchor := now - i * msPerDay
        { date := dateLabel dayAnchor
          activeUsers := db.users.countP (fun u =>
            decide (dayAnchor ≤ u.lastLogin) && decide (u.lastLogin < dayAnchor + msPerDay)) }) }

/-! ## Quotation report (`getQuotationReports`) -/

structure QuotationOverview where
  totalQuotations : Nat
  pendingQuotations : Nat
  processingQuotations : Nat
  completedQuotations : Nat
  rejectedQuotations : Nat
  recentQuotations : Nat
deriving Repr, DecidableEq

structure RevenueStats where
  totalRevenue : Int
  avgQuotationValue : Rat
  maxQuotationValue : Int
  minQuotationValue : Int
deriving Repr, DecidableEq

structure QCategoryStat where
  category : String
  count : Nat
  totalValue : Int
deriving Repr, DecidableEq

/-- One point of the 6-month trend: `revenue` is the completed-quotation
revenue of the window, `revenue[0]?.total || 0`. -/
structure MonthlyTrendPoint where
  month : String
  count : Nat
  revenue : Int
deriving Repr, DecidableEq

/-- `$avg/$max/$min` of `updatedAt - createdAt` (milliseconds). -/
structure ResponseTimeStats where
  avgResponseTime : Rat
  maxResponseTime : Int
  minResponseTime : Int
deriving Repr, DecidableEq

structure QuotationReportData where
  overview : QuotationOverview
  revenueStats : Option RevenueStats
  categoryStats : List QCategoryStat
  monthlyTrends : List MonthlyTrendPoint
  responseTimeStats : Option ResponseTimeStats
deriving Repr, DecidableEq

/-- The response-time aggregate shared by the quotation and reservation
reports: documents selected by `statusMatch`, `responseTime` is
`updatedAt - createdAt`. -/
def responseTimeStatsOf (times : List Int) : Option ResponseTimeStats :=
  match times with
  | [] => none
  | _ :: _ => some
    { avgResponseTime := intAvg times
      maxResponseTime := intMax times
      minResponseTime := intMin times }

/-- The six `(year, month0)` windows of the monthly-trend loop: for
i = 5 .. 0, `date.setMonth(date.getMonth() - i)` on a fresh `new Date()`. -/
def trendMonths (now : Int) : List (Int × Int) :=
  let c := civilOfMs now
  (List.range 6).map (fun k => jsSetMonthYM c.1 ((c.2.1 - 1) - (5 - (k : Int))) c.2.2)

/-- The data assembled by `getQuotationReports`. -/
def quotationReportData (db : DB) (now : Int) (days : Int) : QuotationReportData :=
  let startDate := now - days * msPerDay
  { overview :=
    { totalQuotations := db.quotations.length
      pendingQuotations := db.quotations.countP (fun q => decide (q.status = QStatus.pending))
      processingQuotations := db.quotations.countP (fun q => decide (q.status = QStatus.processing))
      completedQuotations := db.quotations.countP (fun q => decide (q.status = QStatus.completed))
      rejectedQuotations := db.quotations.countP (fun q => decide (q.status = QStatus.rejected))
      recentQuotations := recentCount (db.quotations.map (·.createdAt)) startDate }
    revenueStats :=
      match db.quotations.filter (fun q => decide (q.status = QStatus.completed)) with
      | [] => none
      | c :: cs => some
        { totalRevenue := ((c :: cs).map (·.totalAmount)).sum
          avgQuotationValue := intAvg ((c :: cs).map (·.totalAmount))
          maxQuotationValue := intMax ((c :: cs).map (·.totalAmount))
          minQuotationValue := intMin ((c :: cs).map (·.totalAmount)) }
    categoryStats :=
      sortBy (fun a b => b.count ≤ a.count)
        ((groupByKey (·.productCategory) db.quotations).map (fun g =>
          { category := g.1, count := g.2.length,
            totalValue := (g.2.map (·.totalAmount)).sum }))
    monthlyTrends :=
      (trendMonths now).map (fun ym =>
        let s := monthStartMs ym.1 ym.2
        let e := monthEndJsMs ym.1 ym.2
        let inMonth := db.quotations.filter (fun q =>
          decide (s ≤ q.createdAt) && decide (q.createdAt ≤ e))
        { month := monthLabel ym.1 ym.2
          count := inMonth.length
          revenue := ((inMonth.filter (fun q => decide (q.status = QStatus.completed))).map
            (·.totalAmount)).sum })
    responseTimeStats :=
      responseTimeStatsOf
        ((db.quotations.filter (fun q =>
          decide (q.status = QStatus.completed) || decide (q.status = QStatus.rejected))).map
          (fun q => q.updatedAt - q.createdAt)) }

/-! ## Reservation report (`getReservationReports`) -/

structure ReservationOverview where
  totalReservations : Nat
  pendingReservations : Nat
  confirmedReservations : Nat
  completedReservations : Nat
  cancelledReservations : Nat
  recentReservations : Nat
deriving Repr, DecidableEq

/-- One point of the reservation monthly trend (count only). -/
structure RMonthlyTrendPoint where
  month : String
  count : Nat
deriving Repr, DecidableEq

structure CustomerStat where
  email : String
  reservationCount : Nat
deriving Repr, DecidableEq

structure StatusStat where
  status : RStatus
  count : Nat
deriving Repr, DecidableEq

structure ReservationReportData where
  overview : ReservationOverview
  monthlyTrends : List RMonthlyTrendPoint
  topCustomers : List CustomerStat
  statusDistribution : List StatusStat
  responseTimeStats : Option ResponseTimeStats
deriving Repr, DecidableEq

/-- The data assembled by `getReservationReports`. -/
def reservationReportData (db : DB) (now : Int) (days : Int) : ReservationReportData :=
  let startDate := now - days * msPerDay
  { overview :=
    { totalReservations := db.reservations.length
      pendingReservations := db.reservations.countP (fun r => decide (r.status = RStatus.pending))
      confirmedReservations := db.reservations.countP (fun r => decide (r.status = RStatus.confirmed))
      completedReservations := db.reservations.countP (fun r => decide (r.status = RStatus.completed))
      cancelledReservations := db.reservations.countP (fun r => decide (r.status = RStatus.cancelled))
      recentReservations := recentCount (db.reservations.map (·.createdAt)) startDate }
    monthlyTrends :=
      (trendMonths now).map (fun ym =>
        let s := monthStartMs ym.1 ym.2
        let e := monthEndJsMs ym.1 ym.2
        { month := monthLabel ym.1 ym.2
          count := db.reservations.countP (fun r =>
            decide (s ≤ r.createdAt) && decide (r.createdAt ≤ e)) })
    topCustomers :=
      (sortBy (fun a b => b.reservationCount ≤ a.reservationCount)
        ((groupByKey (·.email) db.reservations).map (fun g =>
          { email := g.1, reservationCount := g.2.length }))).take 10
    statusDistribution :=
      sortBy (fun a b => b.count ≤ a.count)
        ((groupByKey (·.status) db.reservations).map (fun g =>
          { status := g.1, count := g.2.length }))
    responseTimeStats :=
      responseTimeStatsOf
        ((db.reservations.filter (fun r =>
          decide (r.status = RStatus.confirmed) || decide (r.status = RStatus.completed)
            || decide (r.status = RStatus.cancelled))).map
          (fun r => r.updatedAt - r.createdAt)) }

/-! ## Dashboard overview (`getDashboardOverview`) -/

structure DashboardOverview where
  totalProducts : Nat
  totalSuppliers : Nat
  totalUsers : Nat
  totalQuotations : Nat
  totalReservations : Nat
  totalRevenue : Int
deriving Repr, DecidableEq

structure DashboardAlerts where
  lowStockProducts : Nat
  pendingQuotations : Nat
  pendingReservations : Nat
deriving Repr, DecidableEq

structure DashboardRecent where
  recentQuotations : Nat
  recentReservations : Nat
deriving Repr, DecidableEq

structure DashboardData where
  overview : DashboardOverview
  alerts : DashboardAlerts
  recentActivity : DashboardRecent
deriving Repr, DecidableEq

/-- The data assembled by `getDashboardOverview`: no `period` parameter,
the recent window is fixed at 30 days; `totalRevenue` is
`revenueData[0]?.totalRevenue || 0`. -/
def dashboardData (db : DB) (now : Int) : DashboardData :=
  let thirtyDaysAgo := now - 30 * msPerDay
  { overview :=
    { totalProducts := db.products.countP (·.isActive)
      totalSuppliers := db.suppliers.countP (·.isActive)
      totalUsers := db.users.length
      totalQuotations := db.quotations.length
      totalReservations := db.reservations.length
      totalRevenue :=
        ((db.quotations.filter (fun q => decide (q.status = QStatus.completed))).map
          (·.totalAmount)).sum }
    alerts :=
    { lowStockProducts :=
        db.products.countP (fun p => decide (p.stock ≤ p.minStock) && p.isActive)
      pendingQuotations := db.quotations.countP (fun q => decide (q.status = QStatus.pending))
      pendingReservations := db.reservations.countP (fun r => decide (r.status = RStatus.pending)) }
    recentActivity :=
    { recentQuotations := recentCount (db.quotations.map (·.createdAt)) thirtyDaysAgo
      recentReservations := recentCount (db.reservations.map (·.createdAt)) thirtyDaysAgo } }

/-! ## The HTTP boundary

Each controller reads `req.query.period` (default `'30'`), applies
`parseInt`, and builds `startDate` from it.  When `parseInt` yields `NaN` the
`startDate` is an Invalid Date; the `createdAt: {$gte: startDate}` query then
fails to cast, the `catch` block logs, and the handler answers HTTP 500 with
`{success: false, message}`.  The failure payload's message is the underlying
driver error text; its exact wording is external to the repository, so it is
held abstract in `castFailureMessage`. -/

/-- The HTTP 500 `{success: false, message}` payload of a handler's catch
block. -/
structure ApiFailure where
  success : Bool
  message : String
deriving Repr, DecidableEq

/-- Modelled from the spec: the raw error message of the failed query
(`message: error.message`); the driver text itself is not part of the
repository. -/
def castFailureMessage : String := "CastError: invalid date"

def reportFailure : ApiFailure := { success := false, message := castFailureMessage }

/-- `getProductReports` at the HTTP boundary: `{ period = '30' } = req.query`,
`days = parseInt(period)`; a `NaN` period poisons `startDate` and the request
fails with the 500 payload. -/
def getProductReports (db : DB) (now : Int) (periodQ : Option String) :
    Except ApiFailure ProductReportData :=
  match jsParseInt (periodQ.getD "30") with
  | none => .error reportFailure
  | some days => .ok (productReportData db now days)

def getSupplierReports (db : DB) (now : Int) (periodQ : Option String) :
    Except ApiFailure SupplierReportData :=
  match jsParseInt (periodQ.getD "30") with
  | none => .error reportFailure
  | some days => .ok (supplierReportData db now days)

def getUserReports (db : DB) (now : Int) (periodQ : Option String) :
    Except ApiFailure UserReportData :=
  match jsParseInt (periodQ.getD "30") with
  | none => .error reportFailure
  | some days => .ok (userReportData db now days)

def getQuotationReports (db : DB) (now : Int) (periodQ : Option String) :
    Except ApiFailure QuotationReportData :=
  match jsParseInt (periodQ.getD "30") with
  | none => .error reportFailure
  | some days => .ok (quotationReportData db now days)

def getReservationReports (db : DB) (now : Int) (periodQ : Option String) :
    Except ApiFailure ReservationReportData :=
  match jsParseInt (periodQ.getD "30") with
  | none => .error reportFailure
  | some days => .ok (reservationReportData db now days)

/-- `getDashboardOverview` takes no query parameter and cannot fail on a
parse. -/
def getDashboardOverview (db : DB) (now : Int) : DashboardData :=
  dashboardData db now

/-! ## The authenticated request path

`src/routers/reportRoutes.js` mounts `protect` before every report route.
`protect` (middleware/auth.js) resolves the bearer token to a user, rejects
missing/invalid tokens (401) and deactivated users (403), and then *writes*:
`User.findByIdAndUpdate(user._id, { $inc: { loginCount: 1 }, lastLogin: new
Date() })` — every authenticated request bumps the caller's login counter
and refreshes their last-login instant before the report handler runs. -/

inductive ReportPath where
  | dashboard
  | products
  | suppliers
  | users
  | quotations
  | reservations
deriving Repr, DecidableEq

/-- An HTTP request to the report router.  `auth` is the verified subject of
the bearer token (`jwt.verify` is an external collaborator; `none` stands
for a missing or unverifiable token). -/
structure ReportRequest where
  auth : Option Nat
  path : ReportPath
  period : Option String
deriving Repr, DecidableEq

/-- The body of a successful report response. -/
inductive ReportBody where
  | dashboard (d : DashboardData)
  | products (d : ProductReportData)
  | suppliers (d : SupplierReportData)
  | users (d : UserReportData)
  | quotations (d : QuotationReportData)
  | reservations (d : ReservationReportData)
deriving Repr, DecidableEq

/-- An HTTP result of the report router: status code plus body or error
message. -/
inductive ApiResult where
  | ok (status : Nat) (body : ReportBody)
  | err (status : Nat) (message : String)
deriving Repr, DecidableEq

def exceptToResult (f : α → ReportBody) : Except ApiFailure α → ApiResult
  | .ok d => .ok 200 (f d)
  | .error e => .err 500 e.message

/-- Dispatch of the report router once `protect` has passed. -/
def runHandler (db : DB) (now : Int) (req : ReportRequest) : ApiResult :=
  match req.path with
  | .dashboard => .ok 200 (.dashboard (getDashboardOverview db now))
  | .products => exceptToResult .products (getProductReports db now req.period)
  | .suppliers => exceptToResult .suppliers (getSupplierReports db now req.period)
  | .users => exceptToResult .users (getUserReports db now req.period)
  | .quotations => exceptToResult .quotations (getQuotationReports db now req.period)
  | .reservations => exceptToResult .reservations (getReservationReports db now req.period)

/-- The write `protect` performs on the authenticated user:
`$inc: {loginCount: 1}, lastLogin: now`. -/
def authBump (now : Int) (uid : Nat) (users : List User) : List User :=
  users.map (fun v =>
    if v.id = uid then { v with loginCount := v.loginCount + 1, lastLogin := now } else v)

/-- One full request through the report router: `protect` then the handler.
Returns the response and the collection state after the request. -/
def handleReportRequest (db : DB) (now : Int) (req : ReportRequest) :
    ApiResult × DB :=
  match req.auth with
  | none => (.err 401 "Not authorized to access this route", db)
  | some uid =>
    match db.users.find? (fun u => decide (u.id = uid)) with
    | none => (.err 401 "No user found for this token", db)
    | some u =>
      if u.isActive then
        let db' := { db with users := authBump now uid db.users }
        (runHandler db' now req, db')
      else
        (.err 403 "User account is deactivated", db)

/-! ## Theorems -/

/-- C1: In the product report, for every collection state, the low-stock
overview count equals the number of active products with `stock ≤ minStock`,
the out-of-stock overview count equals the number of active products with
`stock = 0` (a subset of the former, hence never larger), the detailed
low-stock list contains exactly the active products with
`0 < stock ≤ minStock`, the detailed out-of-stock list contains exactly the
active products with `stock = 0`, and the two detailed lists are disjoint
(no stock level satisfies both). -/
theorem product_report_stock_consistency (db : DB) (now days : Int) :
    (productReportData db now days).overview.lowStockProducts
      = (db.products.filter (fun p => p.isActive && decide (p.stock ≤ p.minStock))).length
    ∧ (productReportData db now days).overview.outOfStockProducts
      = (db.products.filter (fun p => p.isActive && decide (p.stock = 0))).length
    ∧ (productReportData db now days).overview.outOfStockProducts
      ≤ (productReportData db now days).overview.lowStockProducts
    ∧ (∀ e, e ∈ (productReportData db now days).lowStockProducts ↔
        ∃ p, p ∈ db.products ∧ p.isActive = true ∧ 0 < p.stock ∧ p.stock ≤ p.minStock
          ∧ e = lowStockProj p)
    ∧ (∀ e, e ∈ (productReportData db now days).outOfStockProducts ↔
        ∃ p, p ∈ db.products ∧ p.isActive = true ∧ p.stock = 0 ∧ e = outOfStockProj p)
    ∧ (∀ e ∈ (productReportData db now days).lowStockProducts, e.stock ≠ 0)
    ∧ (∀ e ∈ (productReportData db now days).outOfStockProducts, e.stock = 0) := by
  refine ⟨?_, ?_, ?_, ?_, ?_, ?_, ?_⟩
  · simp only [productReportData, List.countP_eq_length_filter]
    congr 1
    refine List.filter_congr (fun p _ => ?_)
    simp [Bool.and_comm]
  · simp only [productReportData, List.countP_eq_length_filter]
    congr 1
    refine List.filter_congr (fun p _ => ?_)
    simp [Bool.and_comm]
  · simp only [productReportData]
    refine List.countP_mono_left (fun p _ h => ?_)
    revert h
    simp only [Bool.and_eq_true, decide_eq_true_eq, and_imp]
    exact fun h0 hact => ⟨by omega, hact⟩
  · intro e
    simp only [productReportData, List.mem_map, mem_sortBy, List.mem_filter,
      Bool.and_eq_true, decide_eq_true_eq]
    constructor
    · rintro ⟨p, ⟨hp, ⟨hle, hpos⟩, hact⟩, rfl⟩
      exact ⟨p, hp, hact, hpos, hle, rfl⟩
    · rintro ⟨p, hp, hact, hpos, hle, rfl⟩
      exact ⟨p, ⟨hp, ⟨hle, hpos⟩, hact⟩, rfl⟩
  · intro e
    simp only [productReportData, List.mem_map, mem_sortBy, List.mem_filter,
      Bool.and_eq_true, decide_eq_true_eq]
    constructor
    · rintro ⟨p, ⟨hp, h0, hact⟩, rfl⟩
      exact ⟨p, hp, hact, h0, rfl⟩
    · rintro ⟨p, hp, hact, h0, rfl⟩
      exact ⟨p, ⟨hp, h0, hact⟩, rfl⟩
  · intro e he
    revert he
    simp only [productReportData, List.mem_map, mem_sortBy, List.mem_filter,
      Bool.and_eq_true, decide_eq_true_eq]
    rintro ⟨p, ⟨_, ⟨_, hpos⟩, _⟩, rfl⟩
    simp only [lowStockProj]
    omega
  · intro e he
    revert he
    simp only [productReportData, List.mem_map, mem_sortBy, List.mem_filter,
      Bool.and_eq_true, decide_eq_true_eq]
    rintro ⟨p, ⟨_, h0, _⟩, rfl⟩
    simpa [outOfStockProj] using h0

/-- A collection state and clock exhibiting the monthly-trend defects: the
clock reads 2026-01-31 12:00:00 UTC and a single quotation was created
2026-01-31 10:00:00 UTC (within the current calendar month). -/
def trendBugQuotation : Quotation :=
  { status := .pending, productCategory := "fans", totalAmount := 100,
    createdAt := msOfDateTime 2026 1 31 36000000,
    updatedAt := msOfDateTime 2026 1 31 36000000 }

def trendBugDB : DB :=
  { products := [], suppliers := [], users := [], quotations := [trendBugQuotation],
    reservations := [] }

def trendBugNow : Int := msOfDateTime 2026 1 31 43200000

/-- C2: REFUTED on the code.  Evaluated with the clock at 2026-01-31 12:00
UTC, the quotation and reservation monthly-trend series are
`2025-08, 2025-10, 2025-10, 2025-12, 2025-12, 2026-01`: not strictly
increasing, not consecutive (September and November are skipped, October and
December duplicated), because `setMonth` on a day-31 date spills into the
following month.  Moreover every count is 0 although one quotation was
created within the current calendar month: `endOfMonth = new Date(y, m+1, 0)`
is *midnight starting* the month's last day, so documents created later on
that day fall outside `[startOfMonth, endOfMonth]`. -/
theorem monthly_trends_bug :
    ((quotationReportData trendBugDB trendBugNow 30).monthlyTrends.map
        (fun pt => pt.month))
      = ["2025-08", "2025-10", "2025-10", "2025-12", "2025-12", "2026-01"]
    ∧ ((quotationReportData trendBugDB trendBugNow 30).monthlyTrends.map
        (fun pt => pt.count))
      = [0, 0, 0, 0, 0, 0]
    ∧ ((reservationReportData trendBugDB trendBugNow 30).monthlyTrends.map
        (fun pt => pt.month))
      = ["2025-08", "2025-10", "2025-10", "2025-12", "2025-12", "2026-01"]
    ∧ trendBugDB.quotations.countP (fun q =>
        decide (monthStartMs 2026 0 ≤ q.createdAt)
          && decide (q.createdAt < monthStartMs 2026 1)) = 1 := by
  decide

/-- A product created exactly at the request instant (`createdAt = now = 0`):
with `period = 0` the code counts it "recent". -/
def periodZeroProduct : Product :=
  { name := "p", sku := "s", image := "", category := "c", price := 1,
    stock := 1, minStock := 0, isActive := true, supplier := none,
    createdAt := 0, updatedAt := 0 }

def periodZeroDB : DB :=
  { products := [periodZeroProduct], suppliers := [], users := [],
    quotations := [], reservations := [] }

/-- C3 counterexample: with `period = 0` and one product created exactly at
`now`, the product report's recent count is 1, where the claim requires it
to be 0. -/
theorem recent_period_zero_counterexample :
    (productReportData periodZeroDB 0 0).overview.recentProducts ≠ 0 := by
  decide

/-- The closed-interval reading of a recent count holds once every entity
predates the clock: the query `createdAt: {$gte: startDate}` has no upper
bound. -/
theorem recentCount_closed (l : List α) (f : α → Int) (now start : Int)
    (h : ∀ x ∈ l, f x ≤ now) :
    recentCount (l.map f) start
      = l.countP (fun x => decide (start ≤ f x ∧ f x ≤ now)) := by
  unfold recentCount
  rw [List.countP_map]
  refine List.countP_congr (fun x hx => ?_)
  simp [Function.comp, h x hx]

/-- C3 (amended): each report's "recent" overview count equals the number of
entities of that kind with `createdAt ≥ now - period` days — the query has no
upper bound; when every entity of the kind was created no later than `now`
this equals the count in the closed interval `[now - period days, now]`.
`period = 0` counts the entities with `createdAt ≥ now`, which is 0 exactly
when every entity was created strictly before `now` — not unconditionally as
claimed. -/
theorem recent_counts_amended (db : DB) (now days : Int)
    (hp : ∀ p ∈ db.products, p.createdAt ≤ now)
    (hs : ∀ s ∈ db.suppliers, s.createdAt ≤ now)
    (hu : ∀ u ∈ db.users, u.createdAt ≤ now)
    (hq : ∀ q ∈ db.quotations, q.createdAt ≤ now)
    (hr : ∀ r ∈ db.reservations, r.createdAt ≤ now) :
    (productReportData db now days).overview.recentProducts
      = db.products.countP (fun p =>
          decide (now - days * msPerDay ≤ p.createdAt ∧ p.createdAt ≤ now))
    ∧ (supplierReportData db now days).overview.recentSuppliers
      = db.suppliers.countP (fun s =>
          decide (now - days * msPerDay ≤ s.createdAt ∧ s.createdAt ≤ now))
    ∧ (userReportData db now days).overview.recentRegistrations
      = db.users.countP (fun u =>
          decide (now - days * msPerDay ≤ u.createdAt ∧ u.createdAt ≤ now))
    ∧ (quotationReportData db now days).overview.recentQuotations
      = db.quotations.countP (fun q =>
          decide (now - days * msPerDay ≤ q.createdAt ∧ q.createdAt ≤ now))
    ∧ (reservationReportData db now days).overview.recentReservations
      = db.reservations.countP (fun r =>
          decide (now - days * msPerDay ≤ r.createdAt ∧ r.createdAt ≤ now))
    ∧ (∀ ts : List Int,
        recentCount ts (now - 0 * msPerDay) = ts.countP (fun t => decide (now ≤ t))
        ∧ ((∀ t ∈ ts, t < now) → recentCount ts (now - 0 * msPerDay) = 0)) := by
  refine ⟨?_, ?_, ?_, ?_, ?_, fun ts => ⟨?_, fun hlt => ?_⟩⟩
  · simpa only [productReportData] using
      recentCount_closed db.products (fun p => p.createdAt) now (now - days * msPerDay) hp
  · simpa only [supplierReportData] using
      recentCount_closed db.suppliers (fun s => s.createdAt) now (now - days * msPerDay) hs
  · simpa only [userReportData] using
      recentCount_closed db.users (fun u => u.createdAt) now (now - days * msPerDay) hu
  · simpa only [quotationReportData] using
      recentCount_closed db.quotations (fun q => q.createdAt) now (now - days * msPerDay) hq
  · simpa only [reservationReportData] using
      recentCount_closed db.reservations (fun r => r.createdAt) now (now - days * msPerDay) hr
  · simp [recentCount]
  · unfold recentCount
    rw [List.countP_eq_zero]
    intro t ht
    have := hlt t ht
    simp only [decide_eq_true_eq]
    omega

/-- C3 witness: the amended characterisation applied to a one-product state
at `now = 0`, `period = 1`. -/
theorem recent_counts_amended_witness :
    (productReportData periodZeroDB 0 1).overview.recentProducts
      = periodZeroDB.products.countP (fun p =>
          decide (0 - 1 * msPerDay ≤ p.createdAt ∧ p.createdAt ≤ 0)) :=
  (recent_counts_amended periodZeroDB 0 1 (by decide) (by decide) (by decide)
    (by decide) (by decide)).1

/-- A collection state and clock exhibiting the daily-trend window defect:
the clock reads 2026-01-15 12:00:00 UTC and the single user was created (and
last logged in) 2026-01-15 09:00:00 UTC. -/
def dailyBugUser : User :=
  { id := 1, fullName := "Ann", email := "ann@example.com", role := .customer,
    loginCount := 3, lastLogin := msOfDateTime 2026 1 15 32400000,
    createdAt := msOfDateTime 2026 1 15 32400000, isActive := true }

def dailyBugDB : DB :=
  { products := [], suppliers := [], users := [dailyBugUser], quotations := [],
    reservations := [] }

def dailyBugNow : Int := msOfDateTime 2026 1 15 43200000

/-- C4: REFUTED on the code.  The 7 daily-trend windows are anchored at the
request's time of day (`date = new Date(); date.setDate(getDate() - i)` keeps
12:00), not at calendar-day boundaries: a user created at 09:00 of the
current day falls in the window `[Jan 14 12:00, Jan 15 12:00)` and is counted
under the label `2026-01-14`, while the point labelled `2026-01-15` counts 0
although one user was created (and was active) on that calendar day. -/
theorem daily_trends_bug :
    ((userReportData dailyBugDB dailyBugNow 30).registrationTrends.map
        (fun pt => pt.date)).getLast? = some "2026-01-15"
    ∧ ((userReportData dailyBugDB dailyBugNow 30).registrationTrends.map
        (fun pt => pt.count))
      = [0, 0, 0, 0, 0, 1, 0]
    ∧ ((userReportData dailyBugDB dailyBugNow 30).activityTrends.map
        (fun pt => pt.activeUsers))
      = [0, 0, 0, 0, 0, 1, 0]
    ∧ dailyBugDB.users.countP (fun u =>
        decide (msOfDateTime 2026 1 15 0 ≤ u.createdAt)
          && decide (u.createdAt < msOfDateTime 2026 1 16 0)) = 1
    ∧ dailyBugDB.users.countP (fun u =>
        decide (msOfDateTime 2026 1 15 0 ≤ u.lastLogin)
          && decide (u.lastLogin < msOfDateTime 2026 1 16 0)) = 1 := by
  decide

/-- Strict order on bucket keys: numeric lower bounds ascending, the string
key `'100+'` after every numeric key (BSON type order, as `$sort {_id: 1}`
orders them). -/
def bucketIdLt : BucketId → BucketId → Bool
  | .num a, .num b => decide (a < b)
  | .num _, .overflow => true
  | .overflow, _ => false

theorem mkBucket_id (users : List User) (spec : BucketId × (Nat → Bool))
    (b : LoginBucket) (h : mkBucket users spec = some b) : b.id = spec.1 := by
  unfold mkBucket at h
  split at h
  · exact Option.noConfusion h
  · injection h with h
    subst h
    rfl

theorem mkBucket_count (users : List User) (spec : BucketId × (Nat → Bool)) :
    (mkBucket users spec).elim 0 (fun b => b.count)
      = users.countP (fun u => spec.2 u.loginCount) := by
  unfold mkBucket
  rw [List.countP_eq_length_filter]
  split
  · rename_i hEmp
    rw [List.isEmpty_iff] at hEmp
    simp [hEmp]
  · rfl

theorem sum_counts_filterMap (users : List User)
    (specs : List (BucketId × (Nat → Bool))) :
    ((specs.filterMap (mkBucket users)).map (fun b => b.count)).sum
      = (specs.map (fun s => users.countP (fun u => s.2 u.loginCount))).sum := by
  induction specs with
  | nil => rfl
  | cons s ss ih =>
    rw [List.filterMap_cons]
    cases h : mkBucket users s with
    | none =>
      have hc := mkBucket_count users s
      rw [h] at hc
      simp only [Option.elim] at hc
      simp [ih, ← hc]
    | some b =>
      have hc := mkBucket_count users s
      rw [h] at hc
      simp only [Option.elim] at hc
      simp [ih, ← hc]

theorem bucket_counts_total (users : List User) :
    (bucketSpecs.map (fun s => users.countP (fun u => s.2 u.loginCount))).sum
      = users.length := by
  induction users with
  | nil => simp [bucketSpecs]
  | cons u l ih =>
    simp only [bucketSpecs, List.map_cons, List.map_nil, List.sum_cons,
      List.sum_nil, List.countP_cons, List.length_cons, Bool.and_eq_true,
      decide_eq_true_eq] at ih ⊢
    split_ifs <;> omega

theorem bucketSpecs_exactly_one (lc : Nat) :
    bucketSpecs.countP (fun s => s.2 lc) = 1 := by
  simp only [bucketSpecs, List.countP_cons, List.countP_nil, Bool.and_eq_true,
    decide_eq_true_eq]
  split_ifs <;> omega

theorem filterMap_mkBucket_ids_sublist (users : List User)
    (specs : List (BucketId × (Nat → Bool))) :
    ((specs.filterMap (mkBucket users)).map (fun b => b.id)).Sublist
      (specs.map (fun s => s.1)) := by
  induction specs with
  | nil => simp
  | cons s ss ih =>
    rw [List.filterMap_cons]
    cases h : mkBucket users s with
    | none =>
      simpa using ih.cons s.1
    | some b =>
      rw [List.map_cons, List.map_cons, mkBucket_id users s b h]
      exact ih.cons₂ s.1

theorem loginDistribution_sorted (users : List User) :
    List.Pairwise (fun a b => bucketIdLt a b = true)
      ((loginDistribution users).map (fun b => b.id)) := by
  have hall : List.Pairwise (fun a b => bucketIdLt a b = true)
      (bucketSpecs.map (fun s => s.1)) := by decide
  exact hall.sublist (filterMap_mkBucket_ids_sublist users bucketSpecs)

/-- C5: In the user report, every user's `loginCount` satisfies exactly one
bucket predicate of the histogram's boundaries `[0,1) [1,5) [5,10) [10,20)
[20,50) [50,100)` plus the overflow `'100+'`, the bucket counts of
`loginDistribution` sum to the total user count of the same report, and the
buckets are sorted ascending by bucket boundary (overflow last). -/
theorem login_distribution_partition (db : DB) (now days : Int) :
    (((userReportData db now days).loginDistribution).map (fun b => b.count)).sum
      = (userReportData db now days).overview.totalUsers
    ∧ (∀ lc : Nat, bucketSpecs.countP (fun s => s.2 lc) = 1)
    ∧ List.Pairwise (fun a b => bucketIdLt a b = true)
        (((userReportData db now days).loginDistribution).map (fun b => b.id)) := by
  refine ⟨?_, bucketSpecs_exactly_one, ?_⟩
  · simp only [userReportData, loginDistribution]
    rw [sum_counts_filterMap, bucket_counts_total]
  · simpa only [userReportData] using loginDistribution_sorted db.users

/-- C6: Aggregations that match no documents render as empty — the product
report's `stockValue` is the empty object (`none`) and its list sections are
empty arrays when no product is active; the quotation report's
`revenueStats` is empty when no quotation is completed and its
`responseTimeStats` when none is completed or rejected; the user report's
`activityStats` is empty (and its list sections empty) when there are no
users; the reservation report's `responseTimeStats` is empty when no
reservation is confirmed, completed or cancelled.  No case is an error: the
report functions are total and answer the success payload. -/
theorem empty_aggregations_render_empty (db : DB) (now days : Int) :
    ((∀ p ∈ db.products, p.isActive = false) →
      (productReportData db now days).stockValue = none
      ∧ (productReportData db now days).categoryDistribution = []
      ∧ (productReportData db now days).topSuppliers = []
      ∧ (productReportData db now days).lowStockProducts = []
      ∧ (productReportData db now days).outOfStockProducts = [])
    ∧ ((∀ q ∈ db.quotations, q.status ≠ QStatus.completed) →
      (quotationReportData db now days).revenueStats = none)
    ∧ ((∀ q ∈ db.quotations, q.status ≠ QStatus.completed ∧ q.status ≠ QStatus.rejected) →
      (quotationReportData db now days).responseTimeStats = none)
    ∧ (db.users = [] →
      (userReportData db now days).activityStats = none
      ∧ (userReportData db now days).loginDistribution = []
      ∧ (userReportData db now days).topActiveUsers = [])
    ∧ ((∀ r ∈ db.reservations, r.status ≠ RStatus.confirmed
          ∧ r.status ≠ RStatus.completed ∧ r.status ≠ RStatus.cancelled) →
      (reservationReportData db now days).responseTimeStats = none) := by
  refine ⟨fun hP => ?_, fun hQ => ?_, fun hQR => ?_, fun hU => ?_, fun hR => ?_⟩
  · have h1 : db.products.filter (·.isActive) = [] :=
      List.filter_eq_nil_iff.mpr (fun p hp => by simp [hP p hp])
    have h2 : db.products.filter (fun p => p.isActive && p.supplier.isSome) = [] :=
      List.filter_eq_nil_iff.mpr (fun p hp => by simp [hP p hp])
    have h3 : db.products.filter (fun p =>
        decide (p.stock ≤ p.minStock) && decide (0 < p.stock) && p.isActive) = [] :=
      List.filter_eq_nil_iff.mpr (fun p hp => by simp [hP p hp])
    have h4 : db.products.filter (fun p => decide (p.stock = 0) && p.isActive) = [] :=
      List.filter_eq_nil_iff.mpr (fun p hp => by simp [hP p hp])
    refine ⟨?_, ?_, ?_, ?_, ?_⟩ <;>
      simp [productReportData, h1, h2, h3, h4, groupByKey, sortBy]
  · have h : db.quotations.filter (fun q => decide (q.status = QStatus.completed)) = [] :=
      List.filter_eq_nil_iff.mpr (fun q hq => by simp [hQ q hq])
    simp [quotationReportData, h]
  · have h : db.quotations.filter (fun q =>
        decide (q.status = QStatus.completed) || decide (q.status = QStatus.rejected)) = [] :=
      List.filter_eq_nil_iff.mpr (fun q hq => by simp [(hQR q hq).1, (hQR q hq).2])
    simp [quotationReportData, responseTimeStatsOf, h]
  · refine ⟨?_, ?_, ?_⟩ <;>
      simp [userReportData, hU, loginDistribution, bucketSpecs, mkBucket, sortBy]
  · have h : db.reservations.filter (fun r =>
        decide (r.status = RStatus.confirmed) || decide (r.status = RStatus.completed)
          || decide (r.status = RStatus.cancelled)) = [] :=
      List.filter_eq_nil_iff.mpr (fun r hr => by
        simp [(hR r hr).1, (hR r hr).2.1, (hR r hr).2.2])
    simp [reservationReportData, responseTimeStatsOf, h]

/-- C7: The dashboard overview's `totalRevenue` and the quotation report's
`revenueStats.totalRevenue` agree over any one collection state: both are
the sum of `totalAmount` over completed quotations; the dashboard defaults
to 0 exactly when the quotation report's `revenueStats` is the empty object,
which happens exactly when no quotation is completed. -/
theorem dashboard_revenue_agrees (db : DB) (now days : Int) :
    (dashboardData db now).overview.totalRevenue
      = (((quotationReportData db now days).revenueStats).map
          (fun s => s.totalRevenue)).getD 0
    ∧ ((quotationReportData db now days).revenueStats = none
        ↔ db.quotations.filter (fun q => decide (q.status = QStatus.completed)) = [])
    ∧ (dashboardData db now).overview.totalRevenue
      = ((db.quotations.filter (fun q => decide (q.status = QStatus.completed))).map
          (fun q => q.totalAmount)).sum := by
  refine ⟨?_, ?_, rfl⟩
  · simp only [dashboardData, quotationReportData]
    cases h : db.quotations.filter (fun q => decide (q.status = QStatus.completed)) with
    | nil => simp [h]
    | cons c cs => simp [h]
  · simp only [quotationReportData]
    cases h : db.quotations.filter (fun q => decide (q.status = QStatus.completed)) with
    | nil => simp [h]
    | cons c cs => simp [h]

/-- C9: In the supplier report, `expiredAgreements` counts the suppliers
whose agreement end date is strictly before `now`, `expiringSoon` counts
those whose agreement end date lies in the closed interval
`[now, now + 30 days]`, and neither count depends on the caller-supplied
`period` parameter (the 30-day window is fixed). -/
theorem supplier_agreement_windows (db : DB) (now days days₂ : Int) :
    (supplierReportData db now days).overview.expiredAgreements
      = db.suppliers.countP (fun s =>
          match s.agreementEndDate with
          | some d => decide (d < now)
          | none => false)
    ∧ (supplierReportData db now days).overview.expiringSoon
      = db.suppliers.countP (fun s =>
          match s.agreementEndDate with
          | some d => decide (now ≤ d ∧ d ≤ now + 30 * msPerDay)
          | none => false)
    ∧ (supplierReportData db now days).overview.expiredAgreements
      = (supplierReportData db now days₂).overview.expiredAgreements
    ∧ (supplierReportData db now days).overview.expiringSoon
      = (supplierReportData db now days₂).overview.expiringSoon := by
  refine ⟨rfl, ?_, rfl, rfl⟩
  simp only [supplierReportData]
  refine List.countP_congr (fun s hs => ?_)
  cases hEnd : s.agreementEndDate with
  | none => simp
  | some d =>
    simp only [Bool.and_eq_true, decide_eq_true_eq, msPerDay]
    omega

theorem authBump_length (now : Int) (uid : Nat) (users : List User) :
    (authBump now uid users).length = users.length :=
  List.length_map users _

/-- Looking the authenticated user up again after the `protect` write finds
the bumped record: the bump changes no `id`. -/
theorem find?_id_authBump (now : Int) (uid : Nat) (users : List User) :
    (authBump now uid users).find? (fun u => decide (u.id = uid))
      = (users.find? (fun u => decide (u.id = uid))).map
          (fun v => if v.id = uid
            then { v with loginCount := v.loginCount + 1, lastLogin := now }
            else v) := by
  unfold authBump
  have hfun : ((fun u : User => decide (u.id = uid)) ∘ fun v =>
      if v.id = uid
      then { v with loginCount := v.loginCount + 1, lastLogin := now }
      else v)
      = (fun u : User => decide (u.id = uid)) := by
    funext v
    by_cases h : v.id = uid <;> simp [Function.comp, h]
  rw [List.find?_map, hfun]

/-- A report handler's output does not depend on the users collection except
through its length (the dashboard's `totalUsers`), as long as the request is
not for the user report. -/
theorem runHandler_users_independent (ps : List Product) (ss : List Supplier)
    (us₁ us₂ : List User) (qs : List Quotation) (rs : List Reservation)
    (now : Int) (req : ReportRequest) (hpath : req.path ≠ ReportPath.users)
    (hu : us₁.length = us₂.length) :
    runHandler ⟨ps, ss, us₁, qs, rs⟩ now req
      = runHandler ⟨ps, ss, us₂, qs, rs⟩ now req := by
  cases hp : req.path with
  | dashboard =>
    simp [runHandler, hp, getDashboardOverview, dashboardData, hu]
  | products => simp only [runHandler, hp]; rfl
  | suppliers => simp only [runHandler, hp]; rfl
  | users => exact absurd hp hpath
  | quotations => simp only [runHandler, hp]; rfl
  | reservations => simp only [runHandler, hp]; rfl

/-- C8 (amended): each report controller is a deterministic, side-effect-free
function of the collection states and the clock — in the embedding the
handlers read the state and return a value.  The full authenticated request
path is *not* read-only: `protect` bumps the caller's `loginCount` and
`lastLogin` before the handler runs.  That write is the only one — the
product, supplier, quotation and reservation collections are untouched, the
user count and every field of every user other than `loginCount`/`lastLogin`
are preserved — and repeating any request other than the user report against
the state the first request left behind returns the identical response. -/
theorem report_requests_read_only (db : DB) (now : Int) (req : ReportRequest) :
    (handleReportRequest db now req).2.products = db.products
    ∧ (handleReportRequest db now req).2.suppliers = db.suppliers
    ∧ (handleReportRequest db now req).2.quotations = db.quotations
    ∧ (handleReportRequest db now req).2.reservations = db.reservations
    ∧ (handleReportRequest db now req).2.users.length = db.users.length
    ∧ (∀ u ∈ (handleReportRequest db now req).2.users, ∃ v ∈ db.users,
        u.id = v.id ∧ u.isActive = v.isActive ∧ u.role = v.role
          ∧ u.createdAt = v.createdAt ∧ u.fullName = v.fullName ∧ u.email = v.email)
    ∧ (req.path ≠ ReportPath.users →
        (handleReportRequest ((handleReportRequest db now req).2) now req).1
          = (handleReportRequest db now req).1) := by
  obtain ⟨auth, path, period⟩ := req
  cases auth with
  | none =>
    exact ⟨rfl, rfl, rfl, rfl, rfl,
      fun u hu => ⟨u, hu, rfl, rfl, rfl, rfl, rfl, rfl⟩, fun _ => rfl⟩
  | some uid =>
    cases hFind : db.users.find? (fun u => decide (u.id = uid)) with
    | none =>
      have hred : handleReportRequest db now ⟨some uid, path, period⟩
          = (ApiResult.err 401 "No user found for this token", db) := by
        simp only [handleReportRequest, hFind]
      rw [hred]
      exact ⟨rfl, rfl, rfl, rfl, rfl,
        fun u hu => ⟨u, hu, rfl, rfl, rfl, rfl, rfl, rfl⟩, fun _ => by rw [hred]⟩
    | some u =>
      by_cases hAct : u.isActive = true
      · have hred : handleReportRequest db now ⟨some uid, path, period⟩
            = (runHandler { db with users := authBump now uid db.users } now
                ⟨some uid, path, period⟩,
               { db with users := authBump now uid db.users }) := by
          simp only [handleReportRequest, hFind, if_pos hAct]
        rw [hred]
        refine ⟨rfl, rfl, rfl, rfl, authBump_length now uid db.users, ?_, ?_⟩
        · intro w hw
          rw [authBump] at hw
          obtain ⟨v, hv, rfl⟩ := List.mem_map.mp hw
          by_cases h : v.id = uid
          · rw [if_pos h]
            exact ⟨v, hv, rfl, rfl, rfl, rfl, rfl, rfl⟩
          · rw [if_neg h]
            exact ⟨v, hv, rfl, rfl, rfl, rfl, rfl, rfl⟩
        · intro hpath
          have huid : u.id = uid := by
            have := List.find?_some hFind
            simpa using this
          have hFind₂ : ({ db with users := authBump now uid db.users } : DB).users.find?
              (fun w => decide (w.id = uid))
              = some { u with loginCount := u.loginCount + 1, lastLogin := now } := by
            show (authBump now uid db.users).find? (fun w => decide (w.id = uid)) = _
            rw [find?_id_authBump, hFind]
            simp [huid]
          have hAct₂ :
              ({ u with loginCount := u.loginCount + 1, lastLogin := now } : User).isActive
                = true := hAct
          have hred₂ : handleReportRequest
              { db with users := authBump now uid db.users } now ⟨some uid, path, period⟩
              = (runHandler
                  { db with users := authBump now uid (authBump now uid db.users) } now
                  ⟨some uid, path, period⟩,
                 { db with users := authBump now uid (authBump now uid db.users) }) := by
            simp only [handleReportRequest, hFind₂, if_pos hAct₂]
          rw [hred₂]
          obtain ⟨ps, ss, us, qs, rs⟩ := db
          exact runHandler_users_independent ps ss _ _ qs rs now _ hpath
            (authBump_length now uid _)
      · have hred : handleReportRequest db now ⟨some uid, path, period⟩
            = (ApiResult.err 403 "User account is deactivated", db) := by
          simp only [handleReportRequest, hFind, if_neg hAct]
        rw [hred]
        exact ⟨rfl, rfl, rfl, rfl, rfl,
          fun w hw => ⟨w, hw, rfl, rfl, rfl, rfl, rfl, rfl⟩, fun _ => by rw [hred]⟩

/-- The projection the C8 counterexample compares: the `totalLogins` field
of a user-report response. -/
def respTotalLogins : ApiResult → Option Nat
  | .ok _ (.users d) => d.activityStats.map (fun s => s.totalLogins)
  | _ => none

/-- The one-admin state of the C8 counterexample. -/
def idemUser : User :=
  { id := 1, fullName := "Root", email := "root@example.com", role := .admin,
    loginCount := 0, lastLogin := 0, createdAt := 0, isActive := true }

def idemDB : DB :=
  { products := [], suppliers := [], users := [idemUser], quotations := [],
    reservations := [] }

def idemReq : ReportRequest :=
  { auth := some 1, path := .users, period := none }

/-- C8 counterexample: two authenticated requests for the user report, with
the clock held fixed and no other writer touching the collections, return
different results — `protect` bumps the caller's `loginCount` before each
run, so `activityStats.totalLogins` reads 1 on the first response and 2 on
the second. -/
theorem repeated_user_report_differs :
    respTotalLogins (handleReportRequest idemDB 0 idemReq).1 = some 1
    ∧ respTotalLogins
        (handleReportRequest ((handleReportRequest idemDB 0 idemReq).2) 0 idemReq).1
      = some 2
    ∧ (handleReportRequest idemDB 0 idemReq).1
        ≠ (handleReportRequest ((handleReportRequest idemDB 0 idemReq).2) 0 idemReq).1 := by
  refine ⟨by decide, by decide, fun h => ?_⟩
  have h1 : respTotalLogins (handleReportRequest idemDB 0 idemReq).1 = some 1 := by
    decide
  have h2 : respTotalLogins
      (handleReportRequest ((handleReportRequest idemDB 0 idemReq).2) 0 idemReq).1
      = some 2 := by decide
  rw [h] at h1
  rw [h1] at h2
  exact absurd h2 (by decide)

/-- C10: At the public interface the period parameter goes through
`parseInt`: a numeric prefix is silently truncated (`"7.9"` and `"15abc"`
behave as 7 and 15), a negative integer is accepted and puts the window
start in the future so the recent count is 0 for any state whose entities
predate the clock, and a string with no leading digits parses to `NaN`,
which makes every period-taking report fail with the 500 payload instead of
falling back to the default 30. -/
theorem period_parse_behaviour (db : DB) (now : Int) (s : String)
    (hnan : jsParseInt s = none) :
    jsParseInt "7.9" = some 7
    ∧ jsParseInt "15abc" = some 15
    ∧ getProductReports db now (some "7.9") = getProductReports db now (some "7")
    ∧ (∀ days : Int, days < 0 → now < now - days * msPerDay)
    ∧ (∀ days : Int, days < 0 → (∀ p ∈ db.products, p.createdAt ≤ now) →
        (productReportData db now days).overview.recentProducts = 0)
    ∧ getProductReports db now (some s) = Except.error reportFailure
    ∧ getSupplierReports db now (some s) = Except.error reportFailure
    ∧ getUserReports db now (some s) = Except.error reportFailure
    ∧ getQuotationReports db now (some s) = Except.error reportFailure
    ∧ getReservationReports db now (some s) = Except.error reportFailure := by
  refine ⟨by decide, by decide, rfl, ?_, ?_, ?_, ?_, ?_, ?_, ?_⟩
  · intro days hneg
    have h2 : (0 : Int) < msPerDay := by decide
    have h3 : 0 < -days * msPerDay := mul_pos (by omega) h2
    linarith
  · intro days hneg hle
    simp only [productReportData, recentCount]
    rw [List.countP_map, List.countP_eq_zero]
    intro p hp
    have h1 := hle p hp
    have h2 : (0 : Int) < msPerDay := by decide
    have h3 : 0 < -days * msPerDay := mul_pos (by omega) h2
    simp only [Function.comp, decide_eq_true_eq]
    intro hcon
    linarith
  · simp [getProductReports, hnan]
  · simp [getSupplierReports, hnan]
  · simp [getUserReports, hnan]
  · simp [getQuotationReports, hnan]
  · simp [getReservationReports, hnan]

/-- C10 witness: the parse boundary at the concrete state with one product
(created at the epoch), clock 0, and the digit-free period string `"abc"`. -/
theorem period_parse_behaviour_witness :
    getProductReports periodZeroDB 0 (some "abc") = Except.error reportFailure :=
  (period_parse_behaviour periodZeroDB 0 "abc" (by decide)).2.2.2.2.2.1

end NSStores
